import Mathlib

/-!
# Verification of the t38c geofence layer

A shallow embedding of the geofence command builders
(`src/geofence.go`, `src/geofence_query_builder.go`) and of the
streaming execution pipeline, together with theorems settling the
frozen claims about the repository.

Go slices are embedded as Lean lists, Go strings as Lean strings,
Go structs as Lean structures, and the pointer-receiver setter methods
of `Request`/`RoamRequest` as functions returning the updated record.
The external transport collaborator (`Client.ExecuteStream`) and the
JSON decoder (`json.Unmarshal`) are out of scope per the spec and are
passed as function parameters: a transport is a function from a
command to either a start error or the finite list of raw event
payloads it pushes, and a decoder maps a raw payload to either a
decode error or a typed event record.
-/

namespace T38c

/-- Modelled from the spec: the Command Model value type (§3) — a protocol
command is a name plus an ordered list of string arguments; the source
file defining it is not under `src/`, but `src/geofence.go` and
`src/geofence_query_builder.go` use its `Name` and `Args` fields. -/
structure Command where
  Name : String
  Args : List String
deriving DecidableEq

/-- Modelled from the spec: `NewCommand(name, ...args) -> Command` (§4.1),
pure construction, no validation; its defining file is not under `src/`. -/
def NewCommand (name : String) (args : List String) : Command :=
  { Name := name, Args := args }

/-- Modelled from the spec: `DetectAction` is an opaque string tag (§3);
its defining file is not under `src/`. -/
abbrev DetectAction := String

/-- Modelled from the spec: `NotifyCommand` is an opaque string tag (§3);
its defining file is not under `src/`. -/
abbrev NotifyCommand := String

/-- Modelled from the spec: a `SearchOption` is itself represented as a
Command fragment, name + args (§3); its defining file is not under
`src/`, but `src/geofence.go` reads its `Name` and `Args` fields. -/
abbrev SearchOption := Command

/-- Modelled from the spec: a `SearchArea` is an opaque pre-built Command
fragment (§3); `src/geofence.go` converts it to `Command` directly, so we
embed it as `Command`. Its defining file is not under `src/`. -/
abbrev SearchArea := Command

/-- Modelled from the spec: `OutputFormat` is `{name, args}` with an empty
name meaning "omit" (§3); its defining file is not under `src/`. -/
structure OutputFormat where
  Name : String
  Args : List String
deriving DecidableEq

/-- The zero value of `OutputFormat` (Go zero-initialises struct fields). -/
def OutputFormat.zero : OutputFormat := { Name := "", Args := [] }

/-- Modelled from the spec: float64 values reach commands only through the
Command Model's numeric formatter, which produces "the shortest
round-trippable decimal form" (§4.1). Floating point itself is not
embedded; a float value is opaque and carries its canonical decimal
rendering. -/
structure Float64 where
  repr : String
deriving DecidableEq

/-- Modelled from the spec: the numeric-to-string formatter of the Command
Model (§4.1); on our opaque floats it returns the carried canonical
decimal rendering. Its defining file is not under `src/`. -/
def floatString (f : Float64) : String := f.repr

/-- `Request` struct of `src/geofence.go` (fixed-area or point-radius
fence). -/
structure Request where
  Cmd : String
  Key : String
  Area : Command
  OutputFormat : OutputFormat
  DetectActions : List DetectAction
  Options : List SearchOption
deriving DecidableEq

/-- The manual comma-join loop shared by `Request.GeofenceCommand` and
`RoamRequest.GeofenceCommand` in `src/geofence.go`: an accumulator string
and a `first` flag; each iteration appends `","` unless first, then the
action. -/
def detectJoin (actions : List String) : String :=
  (actions.foldl
    (fun acc action => ((if acc.2 then acc.1 else acc.1 ++ ",") ++ action, false))
    ("", true)).1

/-- `Request.GeofenceCommand` of `src/geofence.go` lines 29-63: key, then
each option's name and args, then FENCE, then DETECT + joined actions if
any, then the output format if its name is non-empty, then the area name
and args; the command name is the stored `Cmd`. -/
def Request.GeofenceCommand (req : Request) : Command :=
  let args : List String := []
  let args := args ++ [req.Key]
  let args := req.Options.foldl
    (fun args opt => (args ++ [opt.Name]) ++ opt.Args) args
  let args := args ++ ["FENCE"]
  let args :=
    if req.DetectActions.length > 0 then
      (args ++ ["DETECT"]) ++ [detectJoin req.DetectActions]
    else args
  let args :=
    if req.OutputFormat.Name.length > 0 then
      (args ++ [req.OutputFormat.Name]) ++ req.OutputFormat.Args
    else args
  let args := (args ++ [req.Area.Name]) ++ req.Area.Args
  NewCommand req.Cmd args

/-- `(*Request).Actions` of `src/geofence.go`: replaces the detect-action
list (in Go it assigns through the pointer receiver and returns it). -/
def Request.Actions (req : Request) (actions : List DetectAction) : Request :=
  { req with DetectActions := actions }

/-- `(*Request).WithOptions` of `src/geofence.go`: replaces the option
list. -/
def Request.WithOptions (req : Request) (opts : List SearchOption) : Request :=
  { req with Options := opts }

/-- `(*Request).Format` of `src/geofence.go`: replaces the output
format. -/
def Request.Format (req : Request) (fmt : T38c.OutputFormat) : Request :=
  { req with OutputFormat := fmt }

/-- `GeofenceWithin` of `src/geofence.go`: a `Request` with cmd WITHIN and
the remaining fields zero-valued. -/
def GeofenceWithin (key : String) (area : SearchArea) : Request :=
  { Cmd := "WITHIN", Key := key, Area := area,
    OutputFormat := OutputFormat.zero, DetectActions := [], Options := [] }

/-- `GeofenceIntersects` of `src/geofence.go`. -/
def GeofenceIntersects (key : String) (area : SearchArea) : Request :=
  { Cmd := "INTERSECTS", Key := key, Area := area,
    OutputFormat := OutputFormat.zero, DetectActions := [], Options := [] }

/-- `GeofenceNearby` of `src/geofence.go`: cmd NEARBY with a POINT area
built from the rendered coordinates. -/
def GeofenceNearby (key : String) (lat lon meters : Float64) : Request :=
  { Cmd := "NEARBY", Key := key,
    Area := NewCommand "POINT" [floatString lat, floatString lon, floatString meters],
    OutputFormat := OutputFormat.zero, DetectActions := [], Options := [] }

/-- `RoamRequest` struct of `src/geofence.go` (moving-target fence). -/
structure RoamRequest where
  Key : String
  Target : String
  Pattern : String
  Meters : Int
  OutputFormat : OutputFormat
  DetectActions : List DetectAction
  Options : List SearchOption
deriving DecidableEq

/-- `RoamRequest.GeofenceCommand` of `src/geofence.go` lines 124-159: same
assembly as `Request.GeofenceCommand` up to the output format, then the
tail `ROAM, target, pattern, itoa(meters)`; the command name is always
NEARBY. -/
def RoamRequest.GeofenceCommand (req : RoamRequest) : Command :=
  let args : List String := []
  let args := args ++ [req.Key]
  let args := req.Options.foldl
    (fun args opt => (args ++ [opt.Name]) ++ opt.Args) args
  let args := args ++ ["FENCE"]
  let args :=
    if req.DetectActions.length > 0 then
      (args ++ ["DETECT"]) ++ [detectJoin req.DetectActions]
    else args
  let args :=
    if req.OutputFormat.Name.length > 0 then
      (args ++ [req.OutputFormat.Name]) ++ req.OutputFormat.Args
    else args
  let args := args ++ ["ROAM", req.Target, req.Pattern, toString req.Meters]
  NewCommand "NEARBY" args

/-- `(*RoamRequest).Actions` of `src/geofence.go`: replaces the
detect-action list. -/
def RoamRequest.Actions (req : RoamRequest) (actions : List DetectAction) : RoamRequest :=
  { req with DetectActions := actions }

/-- `(*RoamRequest).WithOptions` of `src/geofence.go`: replaces the option
list. -/
def RoamRequest.WithOptions (req : RoamRequest) (opts : List SearchOption) : RoamRequest :=
  { req with Options := opts }

/-- `(*RoamRequest).Format` of `src/geofence.go`: replaces the output
format. -/
def RoamRequest.Format (req : RoamRequest) (fmt : T38c.OutputFormat) : RoamRequest :=
  { req with OutputFormat := fmt }

/-- `GeofenceRoam` of `src/geofence.go`. -/
def GeofenceRoam (key target pattern : String) (meters : Int) : RoamRequest :=
  { Key := key, Target := target, Pattern := pattern, Meters := meters,
    OutputFormat := OutputFormat.zero, DetectActions := [], Options := [] }

/-- `GeofenceQueryBuilder` struct of `src/geofence_query_builder.go`; the
`client` pointer is the external transport collaborator and is passed to
`Do` as a parameter instead of being stored. -/
structure GeofenceQueryBuilder where
  isRoamQuery : Bool
  cmd : String
  key : String
  area : Command
  target : String
  pattern : String
  meters : Int
  outputFormat : OutputFormat
  detectActions : List DetectAction
  notifyCommands : List NotifyCommand
  searchOpts : List Command
deriving DecidableEq

/-- `newGeofenceQueryBuilder` of `src/geofence_query_builder.go` (area
query): remaining fields are Go zero values. -/
def newGeofenceQueryBuilder (cmd key : String) (area : Command) : GeofenceQueryBuilder :=
  { isRoamQuery := false, cmd := cmd, key := key, area := area,
    target := "", pattern := "", meters := 0,
    outputFormat := OutputFormat.zero, detectActions := [],
    notifyCommands := [], searchOpts := [] }

/-- `newGeofenceRoamQueryBuilder` of `src/geofence_query_builder.go`. -/
def newGeofenceRoamQueryBuilder (key target pattern : String) (meters : Int) :
    GeofenceQueryBuilder :=
  { isRoamQuery := true, cmd := "", key := key,
    area := { Name := "", Args := [] },
    target := target, pattern := pattern, meters := meters,
    outputFormat := OutputFormat.zero, detectActions := [],
    notifyCommands := [], searchOpts := [] }

/-- `GeofenceQueryBuilder.args` of `src/geofence_query_builder.go` lines
47-79: each search option's name and args, FENCE, DETECT + comma-joined
actions if any, COMMANDS + comma-joined notify commands if any, the
output format if its name is non-empty. `strings.Join` is embedded as
`String.intercalate`. -/
def GeofenceQueryBuilder.args (query : GeofenceQueryBuilder) : List String :=
  let args : List String := []
  let args := query.searchOpts.foldl
    (fun args opt => (args ++ [opt.Name]) ++ opt.Args) args
  let args := args ++ ["FENCE"]
  let args :=
    if query.detectActions.length > 0 then
      (args ++ ["DETECT"]) ++ [String.intercalate "," query.detectActions]
    else args
  let args :=
    if query.notifyCommands.length > 0 then
      (args ++ ["COMMANDS"]) ++ [String.intercalate "," query.notifyCommands]
    else args
  let args :=
    if query.outputFormat.Name.length > 0 then
      (args ++ [query.outputFormat.Name]) ++ query.outputFormat.Args
    else args
  args

/-- `GeofenceQueryBuilder.toCmd` of `src/geofence_query_builder.go` lines
81-100: roam queries get command name NEARBY with tail
`ROAM, target, pattern, itoa(meters)`; area queries get the stored `cmd`
with tail `area.Name, area.Args`. -/
def GeofenceQueryBuilder.toCmd (query : GeofenceQueryBuilder) : Command :=
  if query.isRoamQuery then
    NewCommand "NEARBY"
      (([query.key] ++ query.args) ++
        ["ROAM", query.target, query.pattern, toString query.meters])
  else
    NewCommand query.cmd
      ((([query.key] ++ query.args) ++ [query.area.Name]) ++ query.area.Args)

/-- `GeofenceQueryBuilder.Actions` of `src/geofence_query_builder.go`:
appends to the accumulated detect-action list and returns the new
builder value. -/
def GeofenceQueryBuilder.Actions (query : GeofenceQueryBuilder)
    (actions : List DetectAction) : GeofenceQueryBuilder :=
  { query with detectActions := query.detectActions ++ actions }

/-- `GeofenceQueryBuilder.Commands` of `src/geofence_query_builder.go`:
appends to the accumulated notify-command list. -/
def GeofenceQueryBuilder.Commands (query : GeofenceQueryBuilder)
    (notifyCommands : List NotifyCommand) : GeofenceQueryBuilder :=
  { query with notifyCommands := query.notifyCommands ++ notifyCommands }

/-- `GeofenceQueryBuilder.Asc` of `src/geofence_query_builder.go`. -/
def GeofenceQueryBuilder.Asc (query : GeofenceQueryBuilder) : GeofenceQueryBuilder :=
  { query with searchOpts := query.searchOpts ++ [NewCommand "ASC" []] }

/-- `GeofenceQueryBuilder.Desc` of `src/geofence_query_builder.go`. -/
def GeofenceQueryBuilder.Desc (query : GeofenceQueryBuilder) : GeofenceQueryBuilder :=
  { query with searchOpts := query.searchOpts ++ [NewCommand "DESC" []] }

/-- `GeofenceQueryBuilder.NoFields` of `src/geofence_query_builder.go`. -/
def GeofenceQueryBuilder.NoFields (query : GeofenceQueryBuilder) : GeofenceQueryBuilder :=
  { query with searchOpts := query.searchOpts ++ [NewCommand "NOFIELDS" []] }

/-- `GeofenceQueryBuilder.Clip` of `src/geofence_query_builder.go`. -/
def GeofenceQueryBuilder.Clip (query : GeofenceQueryBuilder) : GeofenceQueryBuilder :=
  { query with searchOpts := query.searchOpts ++ [NewCommand "CLIP" []] }

/-- `GeofenceQueryBuilder.Distance` of `src/geofence_query_builder.go`. -/
def GeofenceQueryBuilder.Distance (query : GeofenceQueryBuilder) : GeofenceQueryBuilder :=
  { query with searchOpts := query.searchOpts ++ [NewCommand "DISTANCE" []] }

/-- `GeofenceQueryBuilder.Cursor` of `src/geofence_query_builder.go`. -/
def GeofenceQueryBuilder.Cursor (query : GeofenceQueryBuilder) (cursor : Int) :
    GeofenceQueryBuilder :=
  { query with searchOpts := query.searchOpts ++ [NewCommand "CURSOR" [toString cursor]] }

/-- `GeofenceQueryBuilder.Limit` of `src/geofence_query_builder.go`:
appends a `LIMIT n` fragment to the accumulated search-option list. -/
def GeofenceQueryBuilder.Limit (query : GeofenceQueryBuilder) (limit : Int) :
    GeofenceQueryBuilder :=
  { query with searchOpts := query.searchOpts ++ [NewCommand "LIMIT" [toString limit]] }

/-- `GeofenceQueryBuilder.Sparse` of `src/geofence_query_builder.go`. -/
def GeofenceQueryBuilder.Sparse (query : GeofenceQueryBuilder) (sparse : Int) :
    GeofenceQueryBuilder :=
  { query with searchOpts := query.searchOpts ++ [NewCommand "SPARSE" [toString sparse]] }

/-- `GeofenceQueryBuilder.Where` of `src/geofence_query_builder.go`. -/
def GeofenceQueryBuilder.Where (query : GeofenceQueryBuilder)
    (field : String) (min max : Float64) : GeofenceQueryBuilder :=
  { query with searchOpts := query.searchOpts ++
      [NewCommand "WHERE" [field, floatString min, floatString max]] }

/-- `GeofenceQueryBuilder.Wherein` of `src/geofence_query_builder.go`
lines 193-202: builds `itoa(len(values))` followed by the rendered
values, and appends `NewCommand("WHEREIN", args...)`. Note that the
`field` parameter is never used by the source. -/
def GeofenceQueryBuilder.Wherein (query : GeofenceQueryBuilder)
    (field : String) (values : List Float64) : GeofenceQueryBuilder :=
  let args : List String := []
  let args := args ++ [toString values.length]
  let args := values.foldl (fun args val => args ++ [floatString val]) args
  { query with searchOpts := query.searchOpts ++ [NewCommand "WHEREIN" args] }

/-- `GeofenceQueryBuilder.Match` of `src/geofence_query_builder.go`. -/
def GeofenceQueryBuilder.Match (query : GeofenceQueryBuilder)
    (pattern : String) : GeofenceQueryBuilder :=
  { query with searchOpts := query.searchOpts ++ [NewCommand "MATCH" [pattern]] }

/-- `GeofenceQueryBuilder.Format` of `src/geofence_query_builder.go`:
replaces the output format. -/
def GeofenceQueryBuilder.Format (query : GeofenceQueryBuilder)
    (fmt : OutputFormat) : GeofenceQueryBuilder :=
  { query with outputFormat := fmt }

/-- `GeofenceRequestable` interface of `src/geofence.go`: the two
implementations in the repository are `*Request` and `*RoamRequest`. -/
inductive GeofenceRequestable where
  | ofRequest : Request → GeofenceRequestable
  | ofRoamRequest : RoamRequest → GeofenceRequestable
deriving DecidableEq

/-- Dispatch of the interface method `GeofenceCommand`. -/
def GeofenceRequestable.GeofenceCommand : GeofenceRequestable → Command
  | .ofRequest req => req.GeofenceCommand
  | .ofRoamRequest req => req.GeofenceCommand

/-- The body of the background goroutine of `Client.Fence`
(`src/geofence.go` lines 198-209): for each raw event, attempt to
decode; on failure, log and break out of the loop (the deferred close
then closes the queue); on success, send the decoded response to the
queue. The returned list is the exact sequence of values the consumer
can read from the queue before observing its closure. `json.Unmarshal`
is the external decoder parameter `unmarshal`. -/
def fenceWorker (unmarshal : α → Except ε ρ) : List α → List ρ
  | [] => []
  | event :: events =>
    match unmarshal event with
    | .error _ => []
    | .ok resp => resp :: fenceWorker unmarshal events

/-- `Client.Fence` of `src/geofence.go` lines 190-212: assembles the
request's command, starts the stream through the external transport
collaborator (`executeStream`, a parameter standing for
`Client.ExecuteStream`, which maps the command to either a start error
or the finite sequence of raw payloads the stream yields before
closing); on start error returns that error and no queue
(`Except.error`), otherwise returns the queue contents as observed by
the consumer (`Except.ok`, the queue closing after the last element). -/
def Client.Fence (executeStream : Command → Except σ (List α))
    (unmarshal : α → Except ε ρ) (req : GeofenceRequestable) :
    Except σ (List ρ) :=
  let cmd := req.GeofenceCommand
  match executeStream cmd with
  | .error err => .error err
  | .ok events => .ok (fenceWorker unmarshal events)

/-- The two ways `GeofenceQueryBuilder.Do` wraps an error with
`fmt.Errorf` before returning it: a stream-start failure is wrapped as
`command: <cmd>: <err>`, a decode failure as
`json unmarshal geofence response: <err>`. -/
inductive DoError (ε : Type u) where
  | commandStart (cmd : Command) (err : ε)
  | jsonUnmarshal (err : ε)
deriving DecidableEq

/-- The event loop of `GeofenceQueryBuilder.Do`
(`src/geofence_query_builder.go` lines 110-117): for each raw event,
decode; on failure return the wrapped error immediately (abandoning the
remaining events); on success invoke the handler and continue. The
first component is the exact sequence of decoded events passed to the
handler, in order; the second is the returned error (`none` = nil). -/
def doEvents (unmarshal : α → Except ε ρ) : List α → List ρ × Option (DoError ε)
  | [] => ([], none)
  | event :: events =>
    match unmarshal event with
    | .error err => ([], some (.jsonUnmarshal err))
    | .ok resp =>
      let rest := doEvents unmarshal events
      (resp :: rest.1, rest.2)

/-- `GeofenceQueryBuilder.Do` of `src/geofence_query_builder.go` lines
103-120: assembles the builder's command, starts the stream through the
external transport collaborator; on start error returns the wrapped
error having invoked the handler on nothing; otherwise runs the event
loop on the calling task. Result: (handler invocation sequence,
returned error). -/
def GeofenceQueryBuilder.Do (query : GeofenceQueryBuilder)
    (executeStream : Command → Except ε (List α))
    (unmarshal : α → Except ε ρ) : List ρ × Option (DoError ε) :=
  let cmd := query.toCmd
  match executeStream cmd with
  | .error err => ([], some (.commandStart cmd err))
  | .ok events => doEvents unmarshal events

/-! ## Go slice semantics for the unified builder

The search-option methods of `GeofenceQueryBuilder` run
`query.searchOpts = append(query.searchOpts, ...)` on a value receiver.
Go's `append` reuses the backing array in place when spare capacity
remains and only reallocates when the array is full, so two builders
derived from one value can share — and clobber — one backing array.
The pure-list `searchOpts` above is the builder-value view and is
adequate for sequential chaining, where every intermediate value is
consumed exactly once; for the branch-independence claim the backing
store must be explicit. The model below embeds a Go slice as a header
(array id, length, capacity) over a store of backing arrays, with
`append` following the Go language rule (in-place when capacity
suffices, reallocation otherwise) and the Go gc runtime's
capacity-doubling growth for small slices appended to one element at a
time. -/

/-- A Go slice header: backing-array id into the store, length,
capacity. -/
structure GoSlice where
  arrId : Nat
  len : Nat
  cap : Nat
deriving DecidableEq

/-- The zero `Command` value (Go zero-initialises array slots). -/
def zeroCommand : Command := { Name := "", Args := [] }

/-- The store of backing arrays; each array's list holds the array's
full capacity of slots. -/
structure Store where
  arrays : List (List Command)
deriving DecidableEq

/-- Reading a slice: the first `len` slots of its backing array. -/
def Store.read (st : Store) (s : GoSlice) : List Command :=
  (st.arrays.getD s.arrId []).take s.len

/-- The Go gc runtime's capacity growth for a small slice appended to
one element at a time: double, starting at one. -/
def growCap (cap : Nat) : Nat := if cap = 0 then 1 else 2 * cap

/-- Go `append` of one element: with spare capacity, write the element
in place into the (possibly shared) backing array; otherwise allocate a
fresh, larger array holding the old contents and the new element, the
remaining slots zero. -/
def Store.appendCmd (st : Store) (s : GoSlice) (x : Command) :
    Store × GoSlice :=
  if s.len < s.cap then
    ({ arrays := st.arrays.set s.arrId ((st.arrays.getD s.arrId []).set s.len x) },
      { s with len := s.len + 1 })
  else
    let contents := st.read s ++ [x]
    let arr := contents ++ List.replicate (growCap s.cap - contents.length) zeroCommand
    ({ arrays := st.arrays ++ [arr] },
      { arrId := st.arrays.length, len := s.len + 1, cap := growCap s.cap })

/-- `GeofenceQueryBuilder` with its `searchOpts` slice explicit: `val`
carries the remaining fields (its own `searchOpts` list is unused and
kept empty) and `searchOptsS` is the slice header into the store. -/
structure GeofenceQueryBuilderGo where
  val : GeofenceQueryBuilder
  searchOptsS : GoSlice
deriving DecidableEq

/-- The builder value a slice-level builder denotes under store `st`:
its scalar fields with the search-option slice materialised. -/
def GeofenceQueryBuilderGo.view (q : GeofenceQueryBuilderGo) (st : Store) :
    GeofenceQueryBuilder :=
  { q.val with searchOpts := st.read q.searchOptsS }

/-- `GeofenceQueryBuilder.toCmd` read through the store. -/
def GeofenceQueryBuilderGo.toCmdGo (q : GeofenceQueryBuilderGo) (st : Store) :
    Command :=
  (q.view st).toCmd

/-- The common shape of the search-option methods at slice level:
`query.searchOpts = append(query.searchOpts, c); return query`. -/
def GeofenceQueryBuilderGo.appendOpt (q : GeofenceQueryBuilderGo) (st : Store)
    (c : Command) : Store × GeofenceQueryBuilderGo :=
  let p := st.appendCmd q.searchOptsS c
  (p.1, { q with searchOptsS := p.2 })

/-- `GeofenceQueryBuilder.Asc` at slice level. -/
def GeofenceQueryBuilderGo.Asc (q : GeofenceQueryBuilderGo) (st : Store) :
    Store × GeofenceQueryBuilderGo :=
  q.appendOpt st (NewCommand "ASC" [])

/-- `GeofenceQueryBuilder.Desc` at slice level. -/
def GeofenceQueryBuilderGo.Desc (q : GeofenceQueryBuilderGo) (st : Store) :
    Store × GeofenceQueryBuilderGo :=
  q.appendOpt st (NewCommand "DESC" [])

/-- `GeofenceQueryBuilder.Clip` at slice level. -/
def GeofenceQueryBuilderGo.Clip (q : GeofenceQueryBuilderGo) (st : Store) :
    Store × GeofenceQueryBuilderGo :=
  q.appendOpt st (NewCommand "CLIP" [])

/-- `GeofenceQueryBuilder.Limit` at slice level. -/
def GeofenceQueryBuilderGo.Limit (q : GeofenceQueryBuilderGo) (limit : Int)
    (st : Store) : Store × GeofenceQueryBuilderGo :=
  q.appendOpt st (NewCommand "LIMIT" [toString limit])

/-- `newGeofenceQueryBuilder` at slice level: the Go zero value of a
slice is the nil slice — no backing array, length and capacity zero. -/
def newGeofenceQueryBuilderGo (cmd key : String) (area : Command) :
    GeofenceQueryBuilderGo :=
  { val := newGeofenceQueryBuilder cmd key area,
    searchOptsS := { arrId := 0, len := 0, cap := 0 } }

/-! ## Closed forms of the assembly algorithms

The assembly functions above mirror the source's imperative
append-loops. The helpers and lemmas below give their closed forms,
used to state and prove the claims. -/

/-- The tokens contributed by a list of search options: each option's
name followed by its args, in caller-supplied order. -/
def optionTokens (opts : List Command) : List String :=
  opts.flatMap fun opt => opt.Name :: opt.Args

/-- The tokens contributed by the detect-action list: nothing when empty,
otherwise `DETECT` followed by the comma-joined actions. -/
def detectTokens (actions : List String) : List String :=
  if actions.length > 0 then ["DETECT", String.intercalate "," actions] else []

/-- The tokens contributed by the notify-command list: nothing when empty,
otherwise `COMMANDS` followed by the comma-joined tags. -/
def commandsTokens (cmds : List String) : List String :=
  if cmds.length > 0 then ["COMMANDS", String.intercalate "," cmds] else []

/-- The tokens contributed by the output format: nothing when its name is
empty, otherwise its name followed by its args. -/
def formatTokens (f : OutputFormat) : List String :=
  if f.Name.length > 0 then f.Name :: f.Args else []

theorem foldl_optionTokens (opts : List Command) (init : List String) :
    opts.foldl (fun args opt => (args ++ [opt.Name]) ++ opt.Args) init
      = init ++ optionTokens opts := by
  induction opts generalizing init with
  | nil => simp [optionTokens]
  | cons o os ih =>
    rw [List.foldl_cons, ih]
    simp [optionTokens, List.append_assoc]

theorem detectJoin_go (as : List String) : ∀ s : String,
    (as.foldl
      (fun acc action => ((if acc.2 then acc.1 else acc.1 ++ ",") ++ action, false))
      (s, false)).1 = String.intercalate.go s "," as := by
  induction as with
  | nil => intro s; rfl
  | cons a as ih => intro s; simpa [String.intercalate.go] using ih ((s ++ ",") ++ a)

/-- The manual comma-join loop of `src/geofence.go` computes exactly
`strings.Join(actions, ",")`. -/
theorem detectJoin_eq (actions : List String) :
    detectJoin actions = String.intercalate "," actions := by
  cases actions with
  | nil => rfl
  | cons a as =>
    simpa [detectJoin, String.intercalate, String.empty_append]
      using detectJoin_go as a

/-- Closed form of `Request.GeofenceCommand`. -/
theorem Request.requestCommand_eq (req : Request) :
    req.GeofenceCommand =
      NewCommand req.Cmd
        ([req.Key] ++ optionTokens req.Options ++ ["FENCE"] ++
          detectTokens req.DetectActions ++ formatTokens req.OutputFormat ++
          [req.Area.Name] ++ req.Area.Args) := by
  simp only [Request.GeofenceCommand, foldl_optionTokens, detectJoin_eq,
    detectTokens, formatTokens]
  split_ifs <;> simp [List.append_assoc]

/-- Closed form of `RoamRequest.GeofenceCommand`. -/
theorem RoamRequest.roamCommand_eq (req : RoamRequest) :
    req.GeofenceCommand =
      NewCommand "NEARBY"
        ([req.Key] ++ optionTokens req.Options ++ ["FENCE"] ++
          detectTokens req.DetectActions ++ formatTokens req.OutputFormat ++
          ["ROAM", req.Target, req.Pattern, toString req.Meters]) := by
  simp only [RoamRequest.GeofenceCommand, foldl_optionTokens, detectJoin_eq,
    detectTokens, formatTokens]
  split_ifs <;> simp [List.append_assoc]

/-- Closed form of `GeofenceQueryBuilder.args`. -/
theorem GeofenceQueryBuilder.args_eq (query : GeofenceQueryBuilder) :
    query.args =
      optionTokens query.searchOpts ++ ["FENCE"] ++
        detectTokens query.detectActions ++
        commandsTokens query.notifyCommands ++
        formatTokens query.outputFormat := by
  simp only [GeofenceQueryBuilder.args, foldl_optionTokens,
    detectTokens, commandsTokens, formatTokens]
  split_ifs <;> simp [List.append_assoc]

/-- Closed form of `GeofenceQueryBuilder.toCmd` for roam queries. -/
theorem GeofenceQueryBuilder.toCmd_roam (query : GeofenceQueryBuilder)
    (h : query.isRoamQuery = true) :
    query.toCmd =
      NewCommand "NEARBY"
        ([query.key] ++ query.args ++
          ["ROAM", query.target, query.pattern, toString query.meters]) := by
  simp [GeofenceQueryBuilder.toCmd, h, List.append_assoc]

/-- Closed form of `GeofenceQueryBuilder.toCmd` for area queries. -/
theorem GeofenceQueryBuilder.toCmd_area (query : GeofenceQueryBuilder)
    (h : query.isRoamQuery = false) :
    query.toCmd =
      NewCommand query.cmd
        ([query.key] ++ query.args ++ [query.area.Name] ++ query.area.Args) := by
  simp [GeofenceQueryBuilder.toCmd, h, List.append_assoc]

/-! ## Pipeline characterisations -/

theorem fenceWorker_eq_takeWhile (unmarshal : α → Except ε ρ) (events : List α) :
    fenceWorker unmarshal events =
      (events.takeWhile fun e => ((unmarshal e).toOption).isSome).filterMap
        fun e => (unmarshal e).toOption := by
  induction events with
  | nil => rfl
  | cons e es ih =>
    cases h : unmarshal e with
    | error err => simp [fenceWorker, h, Except.toOption]
    | ok resp => simp [fenceWorker, h, Except.toOption, ih]

theorem doEvents_fst_eq_takeWhile (unmarshal : α → Except ε ρ) (events : List α) :
    (doEvents unmarshal events).1 =
      (events.takeWhile fun e => ((unmarshal e).toOption).isSome).filterMap
        fun e => (unmarshal e).toOption := by
  induction events with
  | nil => rfl
  | cons e es ih =>
    cases h : unmarshal e with
    | error err => simp [doEvents, h, Except.toOption]
    | ok resp => simp [doEvents, h, Except.toOption, ih]

theorem doEvents_all_ok (unmarshal : α → Except ε ρ) (dec : α → ρ)
    (events : List α) (h : ∀ e ∈ events, unmarshal e = .ok (dec e)) :
    doEvents unmarshal events = (events.map dec, none) := by
  induction events with
  | nil => rfl
  | cons e es ih =>
    have he : unmarshal e = .ok (dec e) := h e (by simp)
    have hes := ih fun x hx => h x (by simp [hx])
    simp [doEvents, he, hes]

theorem doEvents_first_error (unmarshal : α → Except ε ρ) (dec : α → ρ)
    (pre rest : List α) (bad : α) (err : ε)
    (hpre : ∀ e ∈ pre, unmarshal e = .ok (dec e))
    (hbad : unmarshal bad = .error err) :
    doEvents unmarshal (pre ++ bad :: rest) =
      (pre.map dec, some (.jsonUnmarshal err)) := by
  induction pre with
  | nil => simp [doEvents, hbad]
  | cons e es ih =>
    have he : unmarshal e = .ok (dec e) := hpre e (by simp)
    have hes := ih fun x hx => hpre x (by simp [hx])
    simp [doEvents, he, hes]

theorem drop_length_sub {γ : Type} (xs tail : List γ) :
    (xs ++ tail).drop ((xs ++ tail).length - tail.length) = tail := by
  rw [List.length_append, Nat.add_sub_cancel, List.drop_left]

theorem optionTokens_append (a b : List Command) :
    optionTokens (a ++ b) = optionTokens a ++ optionTokens b := by
  simp [optionTokens]

/-! ## Slice-model lemmas -/

theorem appendCmd_full (st : Store) (s : GoSlice) (x : Command)
    (h : s.len = s.cap) :
    st.appendCmd s x =
      ({ arrays := st.arrays ++
          [(st.read s ++ [x]) ++
            List.replicate (growCap s.cap - (st.read s ++ [x]).length) zeroCommand] },
        { arrId := st.arrays.length, len := s.len + 1, cap := growCap s.cap }) := by
  simp [Store.appendCmd, h]

theorem getDAppendLeft {β : Type} (l ext : List β) (i : Nat) (d : β)
    (h : i < l.length) :
    (l ++ ext).getD i d = l.getD i d := by
  induction l generalizing i with
  | nil => simp at h
  | cons a t ih =>
    cases i with
    | zero => rfl
    | succ j => simpa using ih j (by simpa using h)

theorem getDAppendSelf {β : Type} (l : List β) (a : β) (ext : List β) (d : β) :
    (l ++ a :: ext).getD l.length d = a := by
  induction l with
  | nil => rfl
  | cons x t ih => simpa using ih

/-- Reading a slice is unaffected by arrays appended to the store after
it, provided the slice is empty or refers into the existing store. -/
theorem read_append_stable (st : Store) (s : GoSlice)
    (ext : List (List Command))
    (h : s.len = 0 ∨ s.arrId < st.arrays.length) :
    Store.read { arrays := st.arrays ++ ext } s = st.read s := by
  rcases h with h | h
  · simp [Store.read, h]
  · show ((st.arrays ++ ext).getD s.arrId []).take s.len
      = (st.arrays.getD s.arrId []).take s.len
    rw [getDAppendLeft st.arrays ext s.arrId [] h]

/-- A well-formed slice (empty, or referring into the store with its
length within its backing array) reads back exactly `len` elements. -/
theorem read_length (st : Store) (s : GoSlice)
    (h : s.len = 0 ∨ (s.arrId < st.arrays.length ∧
        s.len ≤ (st.arrays.getD s.arrId []).length)) :
    (st.read s).length = s.len := by
  rcases h with h | ⟨_, h2⟩
  · simp [Store.read, h]
  · show ((st.arrays.getD s.arrId []).take s.len).length = s.len
    rw [List.length_take]
    exact Nat.min_eq_left h2

/-- Reading the freshly allocated slice at the end of the store yields
the new array's leading contents. -/
theorem read_fresh_slice (arrs : List (List Command)) (contents pad : List Command)
    (L c : Nat) (hL : contents.length = L) :
    Store.read { arrays := arrs ++ [contents ++ pad] }
      { arrId := arrs.length, len := L, cap := c } = contents := by
  show ((arrs ++ [contents ++ pad]).getD arrs.length []).take L = contents
  rw [getDAppendSelf]
  exact List.take_left' hL

/-- A full-capacity append reallocates: the store gains one fresh array
and the returned builder points at it. -/
theorem appendOpt_full_store (st : Store) (q : GeofenceQueryBuilderGo)
    (c : Command) (hfull : q.searchOptsS.len = q.searchOptsS.cap) :
    (q.appendOpt st c).1
      = { arrays := st.arrays ++
          [(st.read q.searchOptsS ++ [c]) ++
            List.replicate (growCap q.searchOptsS.cap
              - (st.read q.searchOptsS ++ [c]).length) zeroCommand] } ∧
    (q.appendOpt st c).2
      = { q with searchOptsS :=
          { arrId := st.arrays.length, len := q.searchOptsS.len + 1,
            cap := growCap q.searchOptsS.cap } } := by
  constructor <;>
    simp [GeofenceQueryBuilderGo.appendOpt, appendCmd_full st q.searchOptsS c hfull]

theorem arrays_length_appendOpt_full (st : Store) (q : GeofenceQueryBuilderGo)
    (c : Command) (hfull : q.searchOptsS.len = q.searchOptsS.cap) :
    ((q.appendOpt st c).1).arrays.length = st.arrays.length + 1 := by
  obtain ⟨h1, _⟩ := appendOpt_full_store st q c hfull
  rw [h1]
  simp

/-- A full-capacity append leaves every existing (or empty) slice's
contents unchanged. -/
theorem read_appendOpt_full (st : Store) (q : GeofenceQueryBuilderGo)
    (c : Command) (s : GoSlice)
    (hfull : q.searchOptsS.len = q.searchOptsS.cap)
    (h : s.len = 0 ∨ s.arrId < st.arrays.length) :
    ((q.appendOpt st c).1).read s = st.read s := by
  obtain ⟨h1, _⟩ := appendOpt_full_store st q c hfull
  rw [h1]
  exact read_append_stable st s _ h

/-- After a full-capacity append, the returned builder's slice reads
back the old contents followed by the appended fragment. -/
theorem read_appendOpt_full_self (st : Store) (q : GeofenceQueryBuilderGo)
    (c : Command) (hfull : q.searchOptsS.len = q.searchOptsS.cap)
    (hlen : (st.read q.searchOptsS).length = q.searchOptsS.len) :
    ((q.appendOpt st c).1).read ((q.appendOpt st c).2).searchOptsS
      = st.read q.searchOptsS ++ [c] := by
  obtain ⟨h1, h2⟩ := appendOpt_full_store st q c hfull
  rw [h1, h2]
  exact read_fresh_slice st.arrays (st.read q.searchOptsS ++ [c]) _ _ _
    (by simp [hlen])

/-- Appending a `LIMIT n` fragment puts the adjacent tokens `LIMIT`,
`itoa(n)` somewhere in the assembled command, in either builder mode. -/
theorem toCmd_limit_segment (q : GeofenceQueryBuilder) (n : Int) :
    ∃ a b, (q.Limit n).toCmd.Args = a ++ ["LIMIT", toString n] ++ b := by
  have harg : (q.Limit n).args
      = optionTokens q.searchOpts ++ ["LIMIT", toString n] ++
        (["FENCE"] ++ detectTokens q.detectActions ++
          commandsTokens q.notifyCommands ++ formatTokens q.outputFormat) := by
    rw [GeofenceQueryBuilder.args_eq]
    simp [GeofenceQueryBuilder.Limit, optionTokens_append, optionTokens,
      NewCommand, List.append_assoc]
  cases hroam : q.isRoamQuery with
  | true =>
    refine ⟨[q.key] ++ optionTokens q.searchOpts,
      ["FENCE"] ++ detectTokens q.detectActions ++
        commandsTokens q.notifyCommands ++ formatTokens q.outputFormat ++
        ["ROAM", q.target, q.pattern, toString q.meters], ?_⟩
    rw [GeofenceQueryBuilder.toCmd_roam (q.Limit n) hroam, harg]
    simp [NewCommand, GeofenceQueryBuilder.Limit, List.append_assoc]
  | false =>
    refine ⟨[q.key] ++ optionTokens q.searchOpts,
      ["FENCE"] ++ detectTokens q.detectActions ++
        commandsTokens q.notifyCommands ++ formatTokens q.outputFormat ++
        [q.area.Name] ++ q.area.Args, ?_⟩
    rw [GeofenceQueryBuilder.toCmd_area (q.Limit n) hroam, harg]
    simp [NewCommand, GeofenceQueryBuilder.Limit, List.append_assoc]

/-! ## Claims -/

/-- C1: the claim states that `Wherein(field, 1.0, 2.0, 3.0)` assembles
the search-option fragment `WHEREIN field 3 1 2 3` — the token WHEREIN,
the field name, the count, then the values. The source
(`src/geofence_query_builder.go` lines 193-202) never uses the `field`
parameter: at the claimed input the assembled fragment is
`WHEREIN 3 1 2 3` and the field name appears nowhere in the command.
This theorem evaluates the code at that failing input. -/
theorem C1_wherein_field_dropped :
    ((newGeofenceQueryBuilder "WITHIN" "fleet" (NewCommand "OBJECT" ["myobj"])).Wherein
        "field" [⟨"1"⟩, ⟨"2"⟩, ⟨"3"⟩]).toCmd =
      NewCommand "WITHIN"
        ["fleet", "WHEREIN", "3", "1", "2", "3", "FENCE", "OBJECT", "myobj"] ∧
    "field" ∉ ((newGeofenceQueryBuilder "WITHIN" "fleet" (NewCommand "OBJECT" ["myobj"])).Wherein
        "field" [⟨"1"⟩, ⟨"2"⟩, ⟨"3"⟩]).toCmd.Args := by
  constructor
  · rfl
  · decide

/-- C2: in push-to-queue mode (`Client.Fence`), when the transport stream
consists of one payload that fails decoding followed by end-of-stream,
the consumer receives zero events through the returned queue and then
observes its closure, with no error value delivered through the queue:
`Fence` returns `.ok []`. -/
theorem C2_fence_swallows_decode_error {σ ε ρ α : Type}
    (executeStream : Command → Except σ (List α)) (unmarshal : α → Except ε ρ)
    (req : GeofenceRequestable) (raw : α) (err : ε)
    (hstream : executeStream req.GeofenceCommand = .ok [raw])
    (hbad : unmarshal raw = .error err) :
    Client.Fence executeStream unmarshal req = .ok ([] : List ρ) := by
  simp [Client.Fence, hstream, fenceWorker, hbad]

/-- Witness for C2: a concrete transport yielding one undecodable
payload, with a concrete `WITHIN` request. -/
theorem C2_fence_swallows_decode_error_witness :
    Client.Fence ((fun _ => Except.ok [0]) : Command → Except String (List Nat))
        (fun n => if n = 0 then Except.error "bad" else Except.ok n)
        (GeofenceRequestable.ofRequest
          (GeofenceWithin "fleet" (NewCommand "OBJECT" ["myobj"])))
      = Except.ok ([] : List Nat) :=
  C2_fence_swallows_decode_error
    ((fun _ => Except.ok [0]) : Command → Except String (List Nat))
    (fun n => if n = 0 then Except.error "bad" else Except.ok n)
    (GeofenceRequestable.ofRequest
      (GeofenceWithin "fleet" (NewCommand "OBJECT" ["myobj"])))
    0 "bad" rfl rfl

/-- C3: in synchronous-callback mode (`GeofenceQueryBuilder.Do`), if a
received payload fails decoding then `Do` returns the wrapped decode
error (non-nil), the handler is invoked exactly on the successfully
decoded payloads that preceded it — not on the malformed one — and the
remaining stream is abandoned; and if every payload of the stream
decodes, `Do` invokes the handler on each in order and returns nil. -/
theorem C3_do_decode_error_semantics {ε ρ α : Type}
    (query : GeofenceQueryBuilder) (executeStream : Command → Except ε (List α))
    (unmarshal : α → Except ε ρ) (dec : α → ρ)
    (pre rest : List α) (bad : α) (err : ε) (events : List α) :
    (executeStream query.toCmd = .ok (pre ++ bad :: rest) →
      (∀ e ∈ pre, unmarshal e = .ok (dec e)) →
      unmarshal bad = .error err →
      query.Do executeStream unmarshal
        = (pre.map dec, some (DoError.jsonUnmarshal err))) ∧
    (executeStream query.toCmd = .ok events →
      (∀ e ∈ events, unmarshal e = .ok (dec e)) →
      query.Do executeStream unmarshal = (events.map dec, none)) := by
  constructor
  · intro hstream hpre hbad
    simp [GeofenceQueryBuilder.Do, hstream,
      doEvents_first_error unmarshal dec pre rest bad err hpre hbad]
  · intro hstream hok
    simp [GeofenceQueryBuilder.Do, hstream, doEvents_all_ok unmarshal dec events hok]

/-- Witness for C3: a concrete stream `[1, 0, 2]` where `0` fails
decoding — the handler sees only `[1]` and the wrapped decode error is
returned. -/
theorem C3_do_decode_error_semantics_witness :
    (newGeofenceQueryBuilder "WITHIN" "fleet" (NewCommand "OBJECT" ["myobj"])).Do
        (fun _ => Except.ok [(1 : Nat), 0, 2])
        (fun n => if n = 0 then Except.error "bad" else Except.ok n)
      = ([1], some (DoError.jsonUnmarshal "bad")) :=
  (C3_do_decode_error_semantics
      (newGeofenceQueryBuilder "WITHIN" "fleet" (NewCommand "OBJECT" ["myobj"]))
      (fun _ => Except.ok [(1 : Nat), 0, 2])
      (fun n => if n = 0 then Except.error "bad" else Except.ok n)
      (fun n => n) [1] [2] 0 "bad" []).1
    rfl
    (by intro e he; simp only [List.mem_singleton] at he; subst he; rfl)
    rfl

/-- C4: for every `RoamRequest` and every roam-mode
`GeofenceQueryBuilder`, the assembled command's name is `NEARBY`
regardless of any other field, and its final four arguments are exactly
`ROAM`, the target, the pattern, and the decimal rendering of meters, in
that order. -/
theorem C4_roam_command_shape (req : RoamRequest) (query : GeofenceQueryBuilder)
    (h : query.isRoamQuery = true) :
    req.GeofenceCommand.Name = "NEARBY" ∧
    req.GeofenceCommand.Args.drop (req.GeofenceCommand.Args.length - 4)
      = ["ROAM", req.Target, req.Pattern, toString req.Meters] ∧
    query.toCmd.Name = "NEARBY" ∧
    query.toCmd.Args.drop (query.toCmd.Args.length - 4)
      = ["ROAM", query.target, query.pattern, toString query.meters] := by
  refine ⟨?_, ?_, ?_, ?_⟩
  · rw [RoamRequest.roamCommand_eq]; rfl
  · rw [RoamRequest.roamCommand_eq]
    have := drop_length_sub
      ([req.Key] ++ optionTokens req.Options ++ ["FENCE"] ++
        detectTokens req.DetectActions ++ formatTokens req.OutputFormat)
      ["ROAM", req.Target, req.Pattern, toString req.Meters]
    simpa [NewCommand, List.append_assoc] using this
  · rw [GeofenceQueryBuilder.toCmd_roam query h]; rfl
  · rw [GeofenceQueryBuilder.toCmd_roam query h]
    have := drop_length_sub ([query.key] ++ query.args)
      ["ROAM", query.target, query.pattern, toString query.meters]
    simpa [NewCommand, List.append_assoc] using this

/-- Witness for C4: a concrete roam request and a concrete roam-mode
builder. -/
theorem C4_roam_command_shape_witness :
    (GeofenceRoam "fleet" "trucks" "truck:*" 5000).GeofenceCommand.Name = "NEARBY" ∧
    (GeofenceRoam "fleet" "trucks" "truck:*" 5000).GeofenceCommand.Args.drop
        ((GeofenceRoam "fleet" "trucks" "truck:*" 5000).GeofenceCommand.Args.length - 4)
      = ["ROAM", "trucks", "truck:*", toString (5000 : Int)] ∧
    (newGeofenceRoamQueryBuilder "fleet" "trucks" "truck:*" 5000).toCmd.Name = "NEARBY" ∧
    (newGeofenceRoamQueryBuilder "fleet" "trucks" "truck:*" 5000).toCmd.Args.drop
        ((newGeofenceRoamQueryBuilder "fleet" "trucks" "truck:*" 5000).toCmd.Args.length - 4)
      = ["ROAM", "trucks", "truck:*", toString (5000 : Int)] :=
  C4_roam_command_shape (GeofenceRoam "fleet" "trucks" "truck:*" 5000)
    (newGeofenceRoamQueryBuilder "fleet" "trucks" "truck:*" 5000) rfl

/-- C5: for every fixed-area `Request` the assembled command's name is
the stored `Cmd` field and its argument list is exactly the key, then
the options' names and args in caller order, then `FENCE`, then the
DETECT block when actions were set, then the output format when its name
is non-empty, then the area's name and args; and
`GeofenceWithin key area` with no options, format or actions assembles
to `WITHIN` with args `[key, "FENCE", area.Name] ++ area.Args`. -/
theorem C5_request_assembly (req : Request) (key : String) (area : SearchArea) :
    req.GeofenceCommand.Name = req.Cmd ∧
    req.GeofenceCommand.Args =
      [req.Key] ++ optionTokens req.Options ++ ["FENCE"] ++
        detectTokens req.DetectActions ++ formatTokens req.OutputFormat ++
        [req.Area.Name] ++ req.Area.Args ∧
    (GeofenceWithin key area).GeofenceCommand =
      NewCommand "WITHIN" ([key, "FENCE", area.Name] ++ area.Args) := by
  refine ⟨?_, ?_, ?_⟩
  · rw [Request.requestCommand_eq]; rfl
  · rw [Request.requestCommand_eq]; rfl
  · rw [Request.requestCommand_eq]
    simp [GeofenceWithin, optionTokens, detectTokens, formatTokens,
      OutputFormat.zero, NewCommand]

/-- C6: for all three assembly paths — `Request`, `RoamRequest` and the
unified builder — when the detect-action list is non-empty, the token
emitted right after `DETECT` is the action strings joined with `","` in
exact input order, with no sorting and no deduplication (the joined
string is a function of the list as given, duplicates included). -/
theorem C6_detect_token_joined (req : Request) (rr : RoamRequest)
    (query : GeofenceQueryBuilder)
    (h1 : req.DetectActions ≠ []) (h2 : rr.DetectActions ≠ [])
    (h3 : query.detectActions ≠ []) :
    (∃ a b, req.GeofenceCommand.Args
        = a ++ ["DETECT", String.intercalate "," req.DetectActions] ++ b) ∧
    (∃ a b, rr.GeofenceCommand.Args
        = a ++ ["DETECT", String.intercalate "," rr.DetectActions] ++ b) ∧
    (∃ a b, query.toCmd.Args
        = a ++ ["DETECT", String.intercalate "," query.detectActions] ++ b) := by
  have l1 : req.DetectActions.length > 0 := List.length_pos.mpr h1
  have l2 : rr.DetectActions.length > 0 := List.length_pos.mpr h2
  have l3 : query.detectActions.length > 0 := List.length_pos.mpr h3
  refine ⟨?_, ?_, ?_⟩
  · refine ⟨[req.Key] ++ optionTokens req.Options ++ ["FENCE"],
      formatTokens req.OutputFormat ++ [req.Area.Name] ++ req.Area.Args, ?_⟩
    rw [Request.requestCommand_eq]
    simp [detectTokens, l1, NewCommand, List.append_assoc]
  · refine ⟨[rr.Key] ++ optionTokens rr.Options ++ ["FENCE"],
      formatTokens rr.OutputFormat ++ ["ROAM", rr.Target, rr.Pattern, toString rr.Meters], ?_⟩
    rw [RoamRequest.roamCommand_eq]
    simp [detectTokens, l2, NewCommand, List.append_assoc]
  · cases hroam : query.isRoamQuery with
    | true =>
      refine ⟨[query.key] ++ optionTokens query.searchOpts ++ ["FENCE"],
        commandsTokens query.notifyCommands ++ formatTokens query.outputFormat ++
          ["ROAM", query.target, query.pattern, toString query.meters], ?_⟩
      rw [GeofenceQueryBuilder.toCmd_roam query hroam, GeofenceQueryBuilder.args_eq]
      simp [detectTokens, l3, NewCommand, List.append_assoc]
    | false =>
      refine ⟨[query.key] ++ optionTokens query.searchOpts ++ ["FENCE"],
        commandsTokens query.notifyCommands ++ formatTokens query.outputFormat ++
          [query.area.Name] ++ query.area.Args, ?_⟩
      rw [GeofenceQueryBuilder.toCmd_area query hroam, GeofenceQueryBuilder.args_eq]
      simp [detectTokens, l3, NewCommand, List.append_assoc]

/-- Witness for C6: concrete builders with a duplicated, unsorted action
list `["exit", "enter", "exit"]`, which passes through unchanged as
`exit,enter,exit`. -/
theorem C6_detect_token_joined_witness :
    (∃ a b, ((GeofenceWithin "fleet" (NewCommand "OBJECT" ["myobj"])).Actions
        ["exit", "enter", "exit"]).GeofenceCommand.Args
        = a ++ ["DETECT", String.intercalate "," ["exit", "enter", "exit"]] ++ b) ∧
    (∃ a b, ((GeofenceRoam "fleet" "trucks" "truck:*" 5000).Actions
        ["exit", "enter", "exit"]).GeofenceCommand.Args
        = a ++ ["DETECT", String.intercalate "," ["exit", "enter", "exit"]] ++ b) ∧
    (∃ a b, ((newGeofenceQueryBuilder "WITHIN" "fleet" (NewCommand "OBJECT" ["myobj"])).Actions
        ["exit", "enter", "exit"]).toCmd.Args
        = a ++ ["DETECT", String.intercalate "," ["exit", "enter", "exit"]] ++ b) :=
  C6_detect_token_joined
    ((GeofenceWithin "fleet" (NewCommand "OBJECT" ["myobj"])).Actions
      ["exit", "enter", "exit"])
    ((GeofenceRoam "fleet" "trucks" "truck:*" 5000).Actions ["exit", "enter", "exit"])
    ((newGeofenceQueryBuilder "WITHIN" "fleet" (NewCommand "OBJECT" ["myobj"])).Actions
      ["exit", "enter", "exit"])
    (by decide) (by decide) (by decide)

/-- C7: in both execution modes, a stream-start error from the transport
collaborator is surfaced immediately: `Fence` returns the error and no
queue (`Except.error`, no background task), and `Do` returns the wrapped
start error having read no events and invoked the handler on nothing. -/
theorem C7_start_error_surfaced {σ ε ρ ρ' α β : Type}
    (executeStream : Command → Except σ (List α))
    (executeStreamQ : Command → Except ε (List β))
    (unmarshalF : α → Except σ ρ) (unmarshal : β → Except ε ρ')
    (req : GeofenceRequestable) (query : GeofenceQueryBuilder)
    (e : σ) (e' : ε)
    (h1 : executeStream req.GeofenceCommand = .error e)
    (h2 : executeStreamQ query.toCmd = .error e') :
    Client.Fence executeStream unmarshalF req = .error e ∧
    query.Do executeStreamQ unmarshal
      = (([] : List ρ'), some (DoError.commandStart query.toCmd e')) := by
  constructor
  · simp [Client.Fence, h1]
  · simp [GeofenceQueryBuilder.Do, h2]

/-- Witness for C7: a concrete transport that fails to start in both
modes. -/
theorem C7_start_error_surfaced_witness :
    Client.Fence ((fun _ => Except.error "down") : Command → Except String (List Nat))
        ((fun n => Except.ok n) : Nat → Except String Nat)
        (GeofenceRequestable.ofRequest
          (GeofenceWithin "fleet" (NewCommand "OBJECT" ["myobj"])))
      = Except.error "down" ∧
    (newGeofenceQueryBuilder "WITHIN" "fleet" (NewCommand "OBJECT" ["myobj"])).Do
        ((fun _ => Except.error "down") : Command → Except String (List Nat))
        ((fun n => Except.ok n) : Nat → Except String Nat)
      = (([] : List Nat),
          some (DoError.commandStart
            (newGeofenceQueryBuilder "WITHIN" "fleet" (NewCommand "OBJECT" ["myobj"])).toCmd
            "down")) :=
  C7_start_error_surfaced
    ((fun _ => Except.error "down") : Command → Except String (List Nat))
    ((fun _ => Except.error "down") : Command → Except String (List Nat))
    ((fun n => Except.ok n) : Nat → Except String Nat)
    ((fun n => Except.ok n) : Nat → Except String Nat)
    (GeofenceRequestable.ofRequest
      (GeofenceWithin "fleet" (NewCommand "OBJECT" ["myobj"])))
    (newGeofenceQueryBuilder "WITHIN" "fleet" (NewCommand "OBJECT" ["myobj"]))
    "down" "down" rfl rfl

/-- C8 counterexample: the claim asserts value independence for *every*
builder `b1`, but `Limit` appends through Go `append` on a value
receiver, so when `b1`'s option slice has spare capacity both sibling
derivations write the same backing-array slot. Concretely, building
`b1` by three appends (`Asc`, `Desc`, `Clip`) from the nil slice leaves
length 3, capacity 4; deriving `b2 := b1.Limit 5` and then
`b3 := b1.Limit 10` makes the second write overwrite the first, and
`b2`'s assembled command contains `LIMIT 10` — the token `5` appears
nowhere in it. This evaluates the slice-level model on that trace. -/
theorem C8_spare_capacity_clobbers :
    (let st0 : Store := { arrays := [] }
     let p1 := (newGeofenceQueryBuilderGo "WITHIN" "fleet"
       (NewCommand "OBJECT" ["myobj"])).Asc st0
     let p2 := p1.2.Desc p1.1
     let p3 := p2.2.Clip p2.1
     let p4 := p3.2.Limit 5 p3.1
     let p5 := p3.2.Limit 10 p4.1
     p3.2.searchOptsS.len = 3 ∧ p3.2.searchOptsS.cap = 4 ∧
     p4.2.toCmdGo p5.1
       = NewCommand "WITHIN"
           ["fleet", "ASC", "DESC", "CLIP", "LIMIT", "10", "FENCE",
             "OBJECT", "myobj"] ∧
     "5" ∉ (p4.2.toCmdGo p5.1).Args ∧
     p5.2.toCmdGo p5.1
       = NewCommand "WITHIN"
           ["fleet", "ASC", "DESC", "CLIP", "LIMIT", "10", "FENCE",
             "OBJECT", "myobj"]) := by
  decide

/-- C8 (amended): under the explicit Go slice semantics, value
independence holds whenever `b1`'s accumulated search-option slice is
at full capacity (length = capacity — e.g. a freshly owned list), so
each sibling derivation's append reallocates a fresh backing array:
deriving `b2 := b1.Limit 5` and then `b3 := b1.Limit 10`, at the final
store `b2`'s assembled command contains the fragment `LIMIT 5`, `b3`'s
contains `LIMIT 10`, and the builder value `b1` denotes is unaffected
by either derivation. With spare capacity this fails, as the
counterexample shows. -/
theorem C8_value_independence_at_full_capacity
    (st : Store) (b1 : GeofenceQueryBuilderGo)
    (hfull : b1.searchOptsS.len = b1.searchOptsS.cap)
    (hvalid : b1.searchOptsS.len = 0 ∨
      (b1.searchOptsS.arrId < st.arrays.length ∧
        b1.searchOptsS.len ≤ (st.arrays.getD b1.searchOptsS.arrId []).length)) :
    (∃ a b, ((b1.Limit 5 st).2.toCmdGo (b1.Limit 10 (b1.Limit 5 st).1).1).Args
        = a ++ ["LIMIT", "5"] ++ b) ∧
    (∃ a b, ((b1.Limit 10 (b1.Limit 5 st).1).2.toCmdGo
          (b1.Limit 10 (b1.Limit 5 st).1).1).Args
        = a ++ ["LIMIT", "10"] ++ b) ∧
    b1.view (b1.Limit 10 (b1.Limit 5 st).1).1 = b1.view st := by
  simp only [GeofenceQueryBuilderGo.Limit]
  have hv' : b1.searchOptsS.len = 0 ∨ b1.searchOptsS.arrId < st.arrays.length := by
    rcases hvalid with h | ⟨h1, h2⟩
    · exact Or.inl h
    · exact Or.inr h1
  have hlen : (st.read b1.searchOptsS).length = b1.searchOptsS.len :=
    read_length st b1.searchOptsS hvalid
  obtain ⟨hst2, hb2⟩ :=
    appendOpt_full_store st b1 (NewCommand "LIMIT" [toString (5 : Int)]) hfull
  obtain ⟨hst3, hb3⟩ :=
    appendOpt_full_store ((b1.appendOpt st (NewCommand "LIMIT" [toString (5 : Int)])).1)
      b1 (NewCommand "LIMIT" [toString (10 : Int)]) hfull
  have hlen2 : ((b1.appendOpt st
        (NewCommand "LIMIT" [toString (5 : Int)])).1).arrays.length
      = st.arrays.length + 1 :=
    arrays_length_appendOpt_full st b1 _ hfull
  have hr1 : ((b1.appendOpt st (NewCommand "LIMIT" [toString (5 : Int)])).1).read
        b1.searchOptsS
      = st.read b1.searchOptsS :=
    read_appendOpt_full st b1 _ b1.searchOptsS hfull hv'
  have hrb2mid : ((b1.appendOpt st (NewCommand "LIMIT" [toString (5 : Int)])).1).read
        ((b1.appendOpt st (NewCommand "LIMIT" [toString (5 : Int)])).2).searchOptsS
      = st.read b1.searchOptsS ++ [NewCommand "LIMIT" [toString (5 : Int)]] :=
    read_appendOpt_full_self st b1 _ hfull hlen
  have hv2 : ((b1.appendOpt st
        (NewCommand "LIMIT" [toString (5 : Int)])).2).searchOptsS.len = 0 ∨
      ((b1.appendOpt st
        (NewCommand "LIMIT" [toString (5 : Int)])).2).searchOptsS.arrId
        < ((b1.appendOpt st
            (NewCommand "LIMIT" [toString (5 : Int)])).1).arrays.length := by
    rw [hb2, hlen2]
    exact Or.inr (Nat.lt_succ_self _)
  have hrb2 : ((b1.appendOpt
        ((b1.appendOpt st (NewCommand "LIMIT" [toString (5 : Int)])).1)
        (NewCommand "LIMIT" [toString (10 : Int)])).1).read
        ((b1.appendOpt st (NewCommand "LIMIT" [toString (5 : Int)])).2).searchOptsS
      = st.read b1.searchOptsS ++ [NewCommand "LIMIT" [toString (5 : Int)]] := by
    rw [read_appendOpt_full _ b1 _ _ hfull hv2, hrb2mid]
  have hlenmid : (((b1.appendOpt st
        (NewCommand "LIMIT" [toString (5 : Int)])).1).read b1.searchOptsS).length
      = b1.searchOptsS.len := by
    rw [hr1]
    exact hlen
  have hrb3 : ((b1.appendOpt
        ((b1.appendOpt st (NewCommand "LIMIT" [toString (5 : Int)])).1)
        (NewCommand "LIMIT" [toString (10 : Int)])).1).read
        ((b1.appendOpt
          ((b1.appendOpt st (NewCommand "LIMIT" [toString (5 : Int)])).1)
          (NewCommand "LIMIT" [toString (10 : Int)])).2).searchOptsS
      = st.read b1.searchOptsS ++ [NewCommand "LIMIT" [toString (10 : Int)]] := by
    rw [read_appendOpt_full_self _ b1 _ hfull hlenmid, hr1]
  have hv1mid : b1.searchOptsS.len = 0 ∨
      b1.searchOptsS.arrId
        < ((b1.appendOpt st
            (NewCommand "LIMIT" [toString (5 : Int)])).1).arrays.length := by
    rcases hv' with h | h
    · exact Or.inl h
    · rw [hlen2]
      exact Or.inr (Nat.lt_succ_of_lt h)
  have hrb1 : ((b1.appendOpt
        ((b1.appendOpt st (NewCommand "LIMIT" [toString (5 : Int)])).1)
        (NewCommand "LIMIT" [toString (10 : Int)])).1).read b1.searchOptsS
      = st.read b1.searchOptsS := by
    rw [read_appendOpt_full _ b1 _ _ hfull hv1mid, hr1]
  refine ⟨?_, ?_, ?_⟩
  · simp only [GeofenceQueryBuilderGo.toCmdGo, GeofenceQueryBuilderGo.view]
    rw [hrb2, hb2]
    exact toCmd_limit_segment
      { b1.val with searchOpts := st.read b1.searchOptsS } 5
  · simp only [GeofenceQueryBuilderGo.toCmdGo, GeofenceQueryBuilderGo.view]
    rw [hrb3, hb3]
    exact toCmd_limit_segment
      { b1.val with searchOpts := st.read b1.searchOptsS } 10
  · simp only [GeofenceQueryBuilderGo.view]
    rw [hrb1]

/-- Witness for C8 (amended): a concrete builder whose option slice
holds `ASC, DESC` at full capacity (length 2, capacity 2) over a
concrete store. -/
theorem C8_value_independence_at_full_capacity_witness :
    (let st : Store := { arrays :=
        [[NewCommand "ASC" []], [NewCommand "ASC" [], NewCommand "DESC" []]] }
     let b1 : GeofenceQueryBuilderGo :=
       { val := newGeofenceQueryBuilder "WITHIN" "fleet"
           (NewCommand "OBJECT" ["myobj"]),
         searchOptsS := { arrId := 1, len := 2, cap := 2 } }
     (∃ a b, ((b1.Limit 5 st).2.toCmdGo (b1.Limit 10 (b1.Limit 5 st).1).1).Args
         = a ++ ["LIMIT", "5"] ++ b) ∧
     (∃ a b, ((b1.Limit 10 (b1.Limit 5 st).1).2.toCmdGo
           (b1.Limit 10 (b1.Limit 5 st).1).1).Args
         = a ++ ["LIMIT", "10"] ++ b) ∧
     b1.view (b1.Limit 10 (b1.Limit 5 st).1).1 = b1.view st) :=
  C8_value_independence_at_full_capacity
    { arrays := [[NewCommand "ASC" []], [NewCommand "ASC" [], NewCommand "DESC" []]] }
    { val := newGeofenceQueryBuilder "WITHIN" "fleet" (NewCommand "OBJECT" ["myobj"]),
      searchOptsS := { arrId := 1, len := 2, cap := 2 } }
    rfl (Or.inr (by constructor <;> decide))

/-- C9: in both delivery modes, the delivered events are exactly the
decoded images, in order, of the longest decodable leading segment of
the received raw-event sequence: no reordering, no dropping and no
batching of successfully decoded events. -/
theorem C9_delivery_order {σ ε ρ α : Type}
    (executeStream : Command → Except σ (List α))
    (executeStreamQ : Command → Except ε (List α))
    (unmarshal : α → Except ε ρ)
    (req : GeofenceRequestable) (query : GeofenceQueryBuilder)
    (events eventsQ : List α)
    (h1 : executeStream req.GeofenceCommand = .ok events)
    (h2 : executeStreamQ query.toCmd = .ok eventsQ) :
    Client.Fence executeStream unmarshal req
      = .ok ((events.takeWhile fun e => ((unmarshal e).toOption).isSome).filterMap
          fun e => (unmarshal e).toOption) ∧
    (query.Do executeStreamQ unmarshal).1
      = (eventsQ.takeWhile fun e => ((unmarshal e).toOption).isSome).filterMap
          fun e => (unmarshal e).toOption := by
  constructor
  · simp [Client.Fence, h1, fenceWorker_eq_takeWhile]
  · simp [GeofenceQueryBuilder.Do, h2, doEvents_fst_eq_takeWhile]

/-- Witness for C9: a concrete stream `[1, 2, 0, 3]` where `0` fails
decoding — both modes deliver `[1, 2]`, the decoded image of the longest
decodable leading segment, in order. -/
theorem C9_delivery_order_witness :
    Client.Fence ((fun _ => Except.ok [1, 2, 0, 3]) : Command → Except String (List Nat))
        (fun n => if n = 0 then Except.error "bad" else Except.ok n)
        (GeofenceRequestable.ofRequest
          (GeofenceWithin "fleet" (NewCommand "OBJECT" ["myobj"])))
      = Except.ok (([1, 2, 0, 3].takeWhile fun e =>
            (((fun n => if n = 0 then Except.error "bad" else Except.ok n) e
              : Except String Nat).toOption).isSome).filterMap
          fun e => ((fun n => if n = 0 then Except.error "bad" else Except.ok n) e
            : Except String Nat).toOption) ∧
    ((newGeofenceQueryBuilder "WITHIN" "fleet" (NewCommand "OBJECT" ["myobj"])).Do
        ((fun _ => Except.ok [1, 2, 0, 3]) : Command → Except String (List Nat))
        (fun n => if n = 0 then Except.error "bad" else Except.ok n)).1
      = (([1, 2, 0, 3].takeWhile fun e =>
            (((fun n => if n = 0 then Except.error "bad" else Except.ok n) e
              : Except String Nat).toOption).isSome).filterMap
          fun e => ((fun n => if n = 0 then Except.error "bad" else Except.ok n) e
            : Except String Nat).toOption) :=
  C9_delivery_order
    ((fun _ => Except.ok [1, 2, 0, 3]) : Command → Except String (List Nat))
    ((fun _ => Except.ok [1, 2, 0, 3]) : Command → Except String (List Nat))
    (fun n => if n = 0 then Except.error "bad" else Except.ok n)
    (GeofenceRequestable.ofRequest
      (GeofenceWithin "fleet" (NewCommand "OBJECT" ["myobj"])))
    (newGeofenceQueryBuilder "WITHIN" "fleet" (NewCommand "OBJECT" ["myobj"]))
    [1, 2, 0, 3] [1, 2, 0, 3] rfl rfl

/-- C10: on the fixed-shape builders the setters overwrite — a second
`WithOptions`, `Actions` or `Format` call yields the same request, and
hence the same command, as making only the second call on the original —
while the unified builder's `Actions`, `Commands` and search-option
methods (here `Limit`) append to the accumulated lists. -/
theorem C10_fixed_setters_overwrite (req : Request) (rr : RoamRequest)
    (query : GeofenceQueryBuilder) (o1 o2 : List SearchOption)
    (a1 a2 : List DetectAction) (f1 f2 : OutputFormat)
    (n1 n2 : List NotifyCommand) :
    (req.WithOptions o1).WithOptions o2 = req.WithOptions o2 ∧
    (req.Actions a1).Actions a2 = req.Actions a2 ∧
    (req.Format f1).Format f2 = req.Format f2 ∧
    ((req.WithOptions o1).WithOptions o2).GeofenceCommand
      = (req.WithOptions o2).GeofenceCommand ∧
    (rr.WithOptions o1).WithOptions o2 = rr.WithOptions o2 ∧
    (rr.Actions a1).Actions a2 = rr.Actions a2 ∧
    (rr.Format f1).Format f2 = rr.Format f2 ∧
    ((query.Actions a1).Actions a2).detectActions
      = query.detectActions ++ a1 ++ a2 ∧
    ((query.Commands n1).Commands n2).notifyCommands
      = query.notifyCommands ++ n1 ++ n2 ∧
    ((query.Limit 5).Limit 10).searchOpts
      = query.searchOpts ++ [NewCommand "LIMIT" ["5"], NewCommand "LIMIT" ["10"]] := by
  refine ⟨rfl, rfl, rfl, rfl, rfl, rfl, rfl, rfl, rfl, ?_⟩
  simp [GeofenceQueryBuilder.Limit, NewCommand]
  exact ⟨rfl, rfl⟩

end T38c
